import Mathlib

/-!
Shallow embedding of the query-routing client (src/public/plugins/State-of-Mika/som-data.ts)
and the life-simulation cache client (LifeSimulatorApiClient) of the digimon-engine
repository, together with theorems settling the specification claims about them.

JavaScript runtime values flowing through the clients are modelled by a small JSON
datatype; JavaScript truthiness, property access, optional chaining, the logical-or
defaulting idiom and template-literal stringification are modelled by explicit helper
functions so that every definition mirrors the TypeScript source line by line.
-/

/-- JSON-like runtime value (JavaScript numbers that matter to the modelled code are
integral, so numbers are modelled as integers). -/
inductive Json where
  | null : Json
  | bool (b : Bool) : Json
  | num (n : Int) : Json
  | str (s : String) : Json
  | arr (elems : List Json) : Json
  | obj (fields : List (String × Json)) : Json
deriving Repr

/-- JavaScript truthiness of a JSON value (undefined is modelled as Option.none at
use sites; empty arrays and objects are truthy in JavaScript). -/
def Json.truthy : Json → Bool
  | .null => false
  | .bool b => b
  | .num n => n != 0
  | .str s => s != ""
  | .arr _ => true
  | .obj _ => true

/-- Property access j[k]: some value only when j is an object carrying key k
(first binding wins, as for plain JS objects without duplicate keys). -/
def Json.get? : Json → String → Option Json
  | .obj fields, k => fields.lookup k
  | _, _ => none

/-- The JavaScript idiom a || b where a is a possibly-undefined JSON value:
returns a when a is defined and truthy, else b. -/
def jsOr (a : Option Json) (b : Json) : Json :=
  match a with
  | some v => if v.truthy then v else b
  | none => b

/-- The JavaScript idiom a || d on a possibly-undefined number (0 is falsy). -/
def jsOrInt (a : Option Int) (d : Int) : Int :=
  match a with
  | some n => if n == 0 then d else n
  | none => d

/-- The JavaScript idiom a || d on a possibly-undefined string (the empty string
is falsy). -/
def jsOrStr (a : Option String) (d : String) : String :=
  match a with
  | some s => if s == "" then d else s
  | none => d

/-- Truthiness of a possibly-undefined string: defined and non-empty. -/
def jsTruthyStr (a : Option String) : Bool :=
  match a with
  | some s => s != ""
  | none => false

/-- Template-literal stringification of a possibly-undefined string
(an undefined value prints as "undefined"). -/
def jsTemplateStr : Option String → String
  | some s => s
  | none => "undefined"

/-- Scan for pat as a prefix of some suffix of s. -/
def charsInclude (pat : List Char) : List Char → Bool
  | [] => pat.isPrefixOf []
  | c :: rest => pat.isPrefixOf (c :: rest) || charsInclude pat rest

/-- Case-sensitive substring containment, modelling String.prototype.includes. -/
def strIncludes (s pat : String) : Bool :=
  charsInclude pat.toList s.toList

/-- Character-wise lowercasing, modelling String.prototype.toLowerCase on the
ASCII range the routing keywords live in. -/
def strToLower (s : String) : String :=
  String.mk (s.data.map Char.toLower)

namespace SOM

/-- QueryOptions of som-data.ts (sessionId and debug only affect logging but are
kept for fidelity). -/
structure QueryOptions where
  tool : Option String := none
  forceWebSearch : Bool := false
  sessionId : Option String := none
  timeout : Option Int := none
  debug : Bool := false
  disableFallback : Bool := false
deriving Repr, DecidableEq

/-- ApiResponse of som-data.ts: the uniform result shape. error carries whatever
JSON the code assigns (the TypeScript annotation says string, but the runtime
value may be any JSON field of the upstream body). -/
structure ApiResponse where
  response : Option Json := none
  status : Int
  error : Option Json := none
  raw : Option Json := none
deriving Repr

/-- The multipart form request performQuery dispatches through axios:
fields query, tool, parameters_str, file, plus the per-request timeout. -/
structure FormRequest where
  query : String
  tool : String
  parameters_str : String
  file : String
  timeout : Int
deriving Repr, DecidableEq

/-- Outcome of one axios dispatch. Because performQuery passes validateStatus
always-true, every HTTP status resolves as response; the three rejection shapes
mirror the catch block's error.response / error.request / other classification. -/
inductive AxiosOutcome where
  | response (status : Int) (body : Json) : AxiosOutcome
  | errorWithResponse (status : Int) (body : Json) (message : String) : AxiosOutcome
  | errorNoResponse : AxiosOutcome
  | errorOther (message : String) : AxiosOutcome
deriving Repr

/-- The value of the multipart tool field (som-data.ts lines 222-234):
an explicit truthy tool wins, else forceWebSearch selects web_search,
else the empty string requests automatic routing. -/
def toolFieldValue (opts : QueryOptions) : String :=
  if jsTruthyStr opts.tool then opts.tool.getD ""
  else if opts.forceWebSearch then "web_search"
  else ""

/-- The form request performQuery builds for a query and options
(timeout is options.timeout || 30000). -/
def buildRequest (q : String) (opts : QueryOptions) : FormRequest :=
  { query := q
    tool := toolFieldValue opts
    parameters_str := ""
    file := ""
    timeout := jsOrInt opts.timeout 30000 }

/-- Success-path payload normalization (som-data.ts line 328):
response.data.response?.processed_response || response.data.response || response.data. -/
def normalizeSuccessBody (body : Json) : Json :=
  jsOr ((body.get? "response").bind (fun r => r.get? "processed_response"))
    (jsOr (body.get? "response") body)

/-- Mapping from the axios outcome to the returned ApiResponse
(som-data.ts lines 318-385). -/
def handleOutcome (outcome : AxiosOutcome) : ApiResponse :=
  match outcome with
  | .response status body =>
      if status == 200 && body.truthy then
        { response := some (normalizeSuccessBody body)
          status := status
          raw := some body }
      else
        { status := status
          error := some (jsOr (body.get? "error") (.str ("Error " ++ toString status)))
          raw := some body }
  | .errorWithResponse status body message =>
      { status := status
        error := some (jsOr (body.get? "error") (.str message))
        raw := some body }
  | .errorNoResponse =>
      { status := 0
        error := some (.str "No response received from server") }
  | .errorOther message =>
      { status := 500
        error := some (.str message) }

/-- performQuery (som-data.ts lines 201-386): short-circuits with 401 when the
configured credential is empty, otherwise dispatches exactly one form request
through the transport and maps its outcome. The second component lists the
requests actually dispatched. -/
def performQuery (apiKey : String) (q : String) (opts : QueryOptions)
    (transport : FormRequest → AxiosOutcome) : ApiResponse × List FormRequest :=
  if apiKey == "" then
    ({ status := 401, error := some (.str "Missing API key") }, [])
  else
    let req := buildRequest q opts
    (handleOutcome (transport req), [req])

/-- Bitcoin-price special-case detection (som-data.ts lines 142-146). -/
def isBitcoinPriceQuery (q : String) : Bool :=
  let lowerQuery := strToLower q
  (strIncludes lowerQuery "bitcoin" || strIncludes lowerQuery "btc")
    && (strIncludes lowerQuery "price" || strIncludes lowerQuery "worth"
        || strIncludes lowerQuery "value")

/-- Options of the first (automatic-routing) attempt: the guard is set to
prevent recursion. -/
def autoRouteOpts (opts : QueryOptions) : QueryOptions :=
  { opts with disableFallback := true }

/-- Options of the forced web-search call (both the Bitcoin special case and the
fallback retry): forceWebSearch on, timeout options.timeout || 30000, guard set. -/
def webSearchOpts (opts : QueryOptions) : QueryOptions :=
  { opts with
      forceWebSearch := true
      timeout := some (jsOrInt opts.timeout 30000)
      disableFallback := true }

/-- query (som-data.ts lines 135-193): guard short-circuit, Bitcoin-price
special case, automatic-routing first attempt, and the single web-search
fallback when the first attempt fails and the caller specified neither a
truthy tool nor forceWebSearch. (The DexScreener check on the failing body
only selects a log message and is behaviourally inert.) -/
def query (apiKey : String) (q : String) (opts : QueryOptions)
    (transport : FormRequest → AxiosOutcome) : ApiResponse × List FormRequest :=
  if opts.disableFallback then
    performQuery apiKey q opts transport
  else if isBitcoinPriceQuery q then
    performQuery apiKey q (webSearchOpts opts) transport
  else
    let initialResult := performQuery apiKey q (autoRouteOpts opts) transport
    if initialResult.1.status == 200 then
      initialResult
    else if !jsTruthyStr opts.tool && !opts.forceWebSearch then
      let retryResult := performQuery apiKey q (webSearchOpts opts) transport
      (retryResult.1, initialResult.2 ++ retryResult.2)
    else
      initialResult

/-- Outcomes that deliver an upstream response body (a resolved response of any
status, or a rejection carrying a response object). -/
def carriesUpstreamBody : AxiosOutcome → Bool
  | .response _ _ => true
  | .errorWithResponse _ _ _ => true
  | .errorNoResponse => false
  | .errorOther _ => false

end SOM

namespace LS

/-- Location interface of the life-simulator module (coordinates are JSON numbers;
no modelled operation computes with them, so they are carried as integers). -/
structure Location where
  name : String
  lat : Int
  lon : Int
  type : String
  role : Option String := none
  country : Option String := none
deriving Repr, DecidableEq

/-- SimulationConfig interface. available_locations is a Record keyed by
location name, modelled as an association list. -/
structure SimulationConfig where
  residence : Location
  occupation : String
  office : Location
  current_time : Option String := none
  available_locations : List (String × Location) := []
  city : Option String := none
  country : Option String := none
  timezone : Option String := none
  gender : Option String := none
  age : Option Int := none
  name : Option String := none
deriving Repr, DecidableEq

/-- Partial simulation configuration (TypeScript Partial: every field may be
absent), as consumed by mergeWithDefaultConfig and stored as the client's
default configuration. -/
structure PartialSimulationConfig where
  residence : Option Location := none
  occupation : Option String := none
  office : Option Location := none
  current_time : Option String := none
  available_locations : Option (List (String × Location)) := none
  city : Option String := none
  country : Option String := none
  timezone : Option String := none
  gender : Option String := none
  age : Option Int := none
  name : Option String := none
deriving Repr, DecidableEq

/-- TransitInfo interface. -/
structure TransitInfo where
  line_name : String
  delay_minutes : Int
  crowding_level : String
  next_departure : String
deriving Repr, DecidableEq

/-- TransitRoute interface. -/
structure TransitRoute where
  line_name : String
  departure_time : String
  arrival_time : String
  duration_minutes : Int
  transfers : Int
  sections : List String
deriving Repr, DecidableEq

/-- WeatherInfo interface (the open-ended details record carries JSON values). -/
structure WeatherInfo where
  condition : String
  temperature : Int
  details : List (String × Json)
deriving Repr

/-- The location block inside ActivityDetails. -/
structure ActivityLocationInfo where
  current : String
  destination : String
deriving Repr, DecidableEq

/-- The transit_info block inside ActivityDetails.details. -/
structure ActivityTransitBlock where
  departures : List TransitInfo
  routes : List TransitRoute
deriving Repr, DecidableEq

/-- The details block inside ActivityDetails. -/
structure ActivityDetailsInner where
  time : String
  weather : WeatherInfo
  transit_info : ActivityTransitBlock
deriving Repr

/-- ActivityDetails interface. -/
structure ActivityDetails where
  main_action : String
  location : ActivityLocationInfo
  reason : String
  narrative : String
  details : ActivityDetailsInner
deriving Repr

/-- Incident interface. -/
structure Incident where
  type : String
  severity : Int
  description : String
  impact_duration : Int
  affects_next_activity : Bool
deriving Repr, DecidableEq

/-- ActivityResponse interface: the payload cached by the client. -/
structure ActivityResponse where
  activity : ActivityDetails
  incident : Option Incident := none
deriving Repr

/-- SimulatorError interface: the result object carried by a rejected fetch.
detail is declared as string but assigned straight from the upstream JSON body,
so it is carried as a JSON value. -/
structure SimulatorError where
  status : Int
  message : String
  detail : Json
deriving Repr

/-- Outcome of one axios.post to the simulate endpoint, mirroring the catch
classification of fetchSimulation: a resolved response, a rejection carrying a
response (status, message and body), or any other thrown value (some message
when the value is an Error instance, none otherwise). -/
inductive SimOutcome where
  | success (data : ActivityResponse) : SimOutcome
  | errorWithResponse (status : Int) (message : String) (body : Json) : SimOutcome
  | errorOther (message : Option String) : SimOutcome
deriving Repr

/-- Default cache duration wiring of the constructor:
options.cacheDuration || 5 * 60 * 1000. -/
def cacheDurationOf (optionDuration : Option Int) : Int :=
  jsOrInt optionDuration (5 * 60 * 1000)

/-- The in-place defaulting fetchSimulation performs before posting
(if (!config.current_time) config.current_time = new Date().toISOString();
note the JavaScript falsy test also replaces an empty-string timestamp). -/
def applyDefaultTime (nowIso : String) (config : SimulationConfig) : SimulationConfig :=
  if jsTruthyStr config.current_time then config
  else { config with current_time := some nowIso }

/-- fetchSimulation: defaults current_time in place, posts the config, and maps
a rejection to a SimulatorError result object. Returns the (possibly mutated)
caller config alongside the outcome. -/
def fetchSimulation (nowIso : String) (post : SimulationConfig → SimOutcome)
    (config : SimulationConfig) :
    Except SimulatorError ActivityResponse × SimulationConfig :=
  let config' := applyDefaultTime nowIso config
  match post config' with
  | .success data => (.ok data, config')
  | .errorWithResponse status message body =>
      (.error
        { status := status
          message := message
          detail := jsOr (body.get? "detail") (.str "Unknown error") }, config')
  | .errorOther message =>
      (.error
        { status := 500
          message := "Failed to fetch life simulation"
          detail := .str (message.getD "Unknown error") }, config')

/-- getCacheKey: the template literal
name_residenceName_currentTime with undefined fields printing as "undefined". -/
def getCacheKey (config : SimulationConfig) : String :=
  jsTemplateStr config.name ++ "_" ++ config.residence.name ++ "_"
    ++ jsTemplateStr config.current_time

/-- One entry of the client's cache map. -/
structure CacheEntry where
  data : ActivityResponse
  timestamp : Int
deriving Repr

/-- The cache map, keyed by cache-key strings. -/
abbrev Cache := List (String × CacheEntry)

/-- Map.get. -/
def cacheGet (cache : Cache) (key : String) : Option CacheEntry :=
  cache.lookup key

/-- Map.set: replaces any previous binding of the key. -/
def cacheSet (cache : Cache) (key : String) (entry : CacheEntry) : Cache :=
  (key, entry) :: cache.filter (fun p => p.1 != key)

/-- isCacheValid: the entry's age is strictly below the configured duration. -/
def isCacheValid (cacheDuration now : Int) (entry : CacheEntry) : Bool :=
  decide (now - entry.timestamp < cacheDuration)

/-- Everything one call to getLifeSimulation produces: the returned or thrown
value, the cache map afterwards, the caller's config object afterwards (it may
have been mutated in place by fetchSimulation), and the configs of the fetch
attempts that were dispatched. -/
structure SimCall where
  result : Except SimulatorError ActivityResponse
  cache : Cache
  config : SimulationConfig
  fetches : List SimulationConfig
deriving Repr

/-- getLifeSimulation: compute the key from the incoming config, serve a valid
cache entry unless forceRefresh, otherwise fetch (exactly once, no retry),
store the fresh data under the precomputed key at the current time, and rethrow
a fetch failure leaving the cache untouched. -/
def getLifeSimulation (cacheDuration : Int) (now : Int) (nowIso : String)
    (post : SimulationConfig → SimOutcome) (cache : Cache)
    (config : SimulationConfig) (forceRefresh : Bool) : SimCall :=
  let cacheKey := getCacheKey config
  let hit : Option CacheEntry :=
    if !forceRefresh then
      match cacheGet cache cacheKey with
      | some entry => if isCacheValid cacheDuration now entry then some entry else none
      | none => none
    else none
  match hit with
  | some entry =>
      { result := .ok entry.data, cache := cache, config := config, fetches := [] }
  | none =>
      match fetchSimulation nowIso post config with
      | (.ok freshData, config') =>
          { result := .ok freshData
            cache := cacheSet cache cacheKey { data := freshData, timestamp := now }
            config := config'
            fetches := [config'] }
      | (.error e, config') =>
          { result := .error e, cache := cache, config := config', fetches := [config'] }

/-- Record assignment available_locations[name] = loc. -/
def recordSet (record : List (String × Location)) (key : String) (loc : Location) :
    List (String × Location) :=
  (key, loc) :: record.filter (fun p => p.1 != key)

/-- mergeWithDefaultConfig: throws (as an Except.error) when residence or office
is absent or occupation is falsy; otherwise seeds available_locations from
residence and office when absent, spreads the partial config over the client's
default config, and defaults current_time to the call instant. -/
def mergeWithDefaultConfig (defaultConfig : PartialSimulationConfig) (nowIso : String)
    (partialConfig : PartialSimulationConfig) : Except String SimulationConfig :=
  if partialConfig.residence.isNone || partialConfig.office.isNone
      || !jsTruthyStr partialConfig.occupation then
    .error "Configuration must include residence, office, and occupation"
  else
    match partialConfig.residence, partialConfig.office, partialConfig.occupation with
    | some residence, some office, some occupation =>
        let availableLocations : List (String × Location) :=
          match partialConfig.available_locations with
          | some locations => locations
          | none => recordSet (recordSet [] residence.name residence) office.name office
        .ok
          { residence := residence
            occupation := occupation
            office := office
            available_locations := availableLocations
            city := partialConfig.city.orElse (fun _ => defaultConfig.city)
            country := partialConfig.country.orElse (fun _ => defaultConfig.country)
            timezone := partialConfig.timezone.orElse (fun _ => defaultConfig.timezone)
            gender := partialConfig.gender.orElse (fun _ => defaultConfig.gender)
            age := partialConfig.age.orElse (fun _ => defaultConfig.age)
            name := partialConfig.name.orElse (fun _ => defaultConfig.name)
            current_time := some (jsOrStr partialConfig.current_time nowIso) }
    | _, _, _ => .error "Configuration must include residence, office, and occupation"

end LS

/-- A concrete location for evaluating the definitions. -/
def sampleHome : LS.Location :=
  { name := "Home", lat := 40, lon := -74, type := "residential", role := some "home" }

/-- A second concrete location. -/
def sampleOffice : LS.Location :=
  { name := "Office", lat := 40, lon := -73, type := "commercial", role := some "work" }

/-- A concrete simulation config without a current_time. -/
def sampleConfig : LS.SimulationConfig :=
  { residence := sampleHome
    occupation := "engineer"
    office := sampleOffice
    available_locations := [("Home", sampleHome), ("Office", sampleOffice)]
    name := some "Alice" }

/-- A concrete activity payload for evaluating the cache. -/
def sampleActivity : LS.ActivityResponse :=
  { activity :=
      { main_action := "commute"
        location := { current := "Home", destination := "Office" }
        reason := "work"
        narrative := "Taking the train to the office."
        details :=
          { time := "2024-01-01T09:00:00Z"
            weather := { condition := "sunny", temperature := 20, details := [] }
            transit_info := { departures := [], routes := [] } } } }

/-! Helper lemmas about the query client, shared by several claim theorems. -/

namespace SOM

theorem performQuery_empty_key (q : String) (opts : QueryOptions)
    (transport : FormRequest → AxiosOutcome) :
    performQuery "" q opts transport
      = ({ status := 401, error := some (.str "Missing API key") }, []) := rfl

theorem performQuery_of_key (apiKey : String) (hkey : apiKey ≠ "") (q : String)
    (opts : QueryOptions) (transport : FormRequest → AxiosOutcome) :
    performQuery apiKey q opts transport
      = (handleOutcome (transport (buildRequest q opts)), [buildRequest q opts]) := by
  unfold performQuery
  rw [if_neg]
  simpa using hkey

/-- Branch normal form of query: the let bindings of the source zeta-reduce
away, leaving the routing policy as nested conditionals over performQuery. -/
theorem query_eq_cases (apiKey q : String) (opts : QueryOptions)
    (transport : FormRequest → AxiosOutcome) :
    query apiKey q opts transport =
      if opts.disableFallback then
        performQuery apiKey q opts transport
      else if isBitcoinPriceQuery q then
        performQuery apiKey q (webSearchOpts opts) transport
      else if (performQuery apiKey q (autoRouteOpts opts) transport).1.status == 200 then
        performQuery apiKey q (autoRouteOpts opts) transport
      else if !jsTruthyStr opts.tool && !opts.forceWebSearch then
        ((performQuery apiKey q (webSearchOpts opts) transport).1,
          (performQuery apiKey q (autoRouteOpts opts) transport).2
            ++ (performQuery apiKey q (webSearchOpts opts) transport).2)
      else
        performQuery apiKey q (autoRouteOpts opts) transport := rfl

theorem performQuery_reqs_length (apiKey q : String) (opts : QueryOptions)
    (transport : FormRequest → AxiosOutcome) :
    (performQuery apiKey q opts transport).2.length ≤ 1 := by
  unfold performQuery
  split
  · simp
  · simp

theorem query_reqs_length (apiKey q : String) (opts : QueryOptions)
    (transport : FormRequest → AxiosOutcome) :
    (query apiKey q opts transport).2.length ≤ 2 := by
  rw [query_eq_cases]
  split
  · exact (performQuery_reqs_length _ _ _ _).trans one_le_two
  · split
    · exact (performQuery_reqs_length _ _ _ _).trans one_le_two
    · split
      · exact (performQuery_reqs_length _ _ _ _).trans one_le_two
      · split
        · simpa using
            Nat.add_le_add (performQuery_reqs_length apiKey q (autoRouteOpts opts) transport)
              (performQuery_reqs_length apiKey q (webSearchOpts opts) transport)
        · exact (performQuery_reqs_length _ _ _ _).trans one_le_two

theorem webSearchOpts_timeout (opts : QueryOptions) :
    jsOrInt (webSearchOpts opts).timeout 30000 = jsOrInt opts.timeout 30000 := by
  cases h : opts.timeout with
  | none => simp [webSearchOpts, jsOrInt, h]
  | some n =>
      by_cases h0 : n = 0
      · simp [webSearchOpts, jsOrInt, h, h0]
      · simp [webSearchOpts, jsOrInt, h, h0]

theorem webSearchOpts_tool_value (opts : QueryOptions) (htool : jsTruthyStr opts.tool = false) :
    toolFieldValue (webSearchOpts opts) = "web_search" := by
  simp [toolFieldValue, webSearchOpts, htool]

theorem handleOutcome_payload_xor_error (o : AxiosOutcome) :
    (handleOutcome o).response.isSome = (handleOutcome o).error.isNone := by
  cases o with
  | response status body =>
      simp only [handleOutcome]
      split <;> rfl
  | errorWithResponse status body message => rfl
  | errorNoResponse => rfl
  | errorOther message => rfl

theorem handleOutcome_raw (o : AxiosOutcome) :
    (handleOutcome o).raw.isSome = carriesUpstreamBody o := by
  cases o with
  | response status body =>
      simp only [handleOutcome]
      split <;> rfl
  | errorWithResponse status body message => rfl
  | errorNoResponse => rfl
  | errorOther message => rfl

theorem performQuery_payload_xor_error (apiKey q : String) (opts : QueryOptions)
    (transport : FormRequest → AxiosOutcome) :
    (performQuery apiKey q opts transport).1.response.isSome
      = (performQuery apiKey q opts transport).1.error.isNone := by
  by_cases hkey : apiKey = ""
  · subst hkey
    rfl
  · rw [performQuery_of_key apiKey hkey]
    exact handleOutcome_payload_xor_error _

/-- Every result query returns is the first component of some performQuery call
(with the original, the auto-routing, or the forced web-search options). -/
theorem query_result_is_a_performQuery_result (apiKey q : String) (opts : QueryOptions)
    (transport : FormRequest → AxiosOutcome) :
    (query apiKey q opts transport).1 = (performQuery apiKey q opts transport).1
  ∨ (query apiKey q opts transport).1
      = (performQuery apiKey q (webSearchOpts opts) transport).1
  ∨ (query apiKey q opts transport).1
      = (performQuery apiKey q (autoRouteOpts opts) transport).1 := by
  unfold query
  by_cases h1 : opts.disableFallback
  · simp [h1]
  · by_cases h2 : isBitcoinPriceQuery q
    · simp [h1, h2]
    · simp only [h1, h2, if_false, Bool.false_eq_true]
      by_cases h3 : (performQuery apiKey q (autoRouteOpts opts) transport).1.status == 200
      · simp [h3]
      · by_cases h4 : (!jsTruthyStr opts.tool && !opts.forceWebSearch) = true
        · simp [h3, h4]
        · simp [h3, h4]

end SOM

/-- C4: with an empty (or missing) credential every query() invocation returns a
statusCode-401 result and dispatches no network request, on every path through
the routing policy. -/
theorem query_missing_credential_short_circuit (q : String) (opts : SOM.QueryOptions)
    (transport : SOM.FormRequest → SOM.AxiosOutcome) :
    (SOM.query "" q opts transport).1.status = 401
  ∧ (SOM.query "" q opts transport).1.error = some (.str "Missing API key")
  ∧ (SOM.query "" q opts transport).2 = [] := by
  unfold SOM.query
  by_cases h1 : opts.disableFallback
  · simp [h1, SOM.performQuery_empty_key]
  · by_cases h2 : SOM.isBitcoinPriceQuery q
    · simp [h1, h2, SOM.performQuery_empty_key]
    · simp [h1, h2, SOM.performQuery_empty_key]

/-- C5 (amended): performQuery converts every transport failure into a result
instead of throwing — a response-bearing rejection maps to the response's
status, its error field (or the failure message) and the response body as raw;
a request-sent-but-no-response rejection maps to statusCode 0 with the message
"No response received from server"; any other failure maps to statusCode 500
with the underlying message; and a resolved response of any HTTP status is
handled as a response whose status is surfaced unchanged. -/
theorem performQuery_failure_mapping (apiKey q : String) (opts : SOM.QueryOptions)
    (transport : SOM.FormRequest → SOM.AxiosOutcome) (hkey : apiKey ≠ "") :
    (∀ status body, transport (SOM.buildRequest q opts) = .response status body →
        (SOM.performQuery apiKey q opts transport).1.status = status)
  ∧ (∀ status body message,
        transport (SOM.buildRequest q opts) = .errorWithResponse status body message →
        (SOM.performQuery apiKey q opts transport).1
          = { status := status
              error := some (jsOr (body.get? "error") (.str message))
              raw := some body })
  ∧ (transport (SOM.buildRequest q opts) = .errorNoResponse →
        (SOM.performQuery apiKey q opts transport).1
          = { status := 0, error := some (.str "No response received from server") })
  ∧ (∀ message, transport (SOM.buildRequest q opts) = .errorOther message →
        (SOM.performQuery apiKey q opts transport).1
          = { status := 500, error := some (.str message) }) := by
  rw [SOM.performQuery_of_key apiKey hkey]
  refine ⟨?_, ?_, ?_, ?_⟩
  · intro status body h
    rw [h]
    simp only [SOM.handleOutcome]
    split <;> rfl
  · intro status body message h
    rw [h]
    rfl
  · intro h
    rw [h]
    rfl
  · intro message h
    rw [h]
    rfl

/-- Witness for performQuery_failure_mapping at a concrete transport failure. -/
theorem performQuery_failure_mapping_witness :
    (SOM.performQuery "k" "hello" {} (fun _ => .errorNoResponse)).1
      = { status := 0, error := some (.str "No response received from server") } :=
  (performQuery_failure_mapping "k" "hello" {} (fun _ => .errorNoResponse)
    (by decide)).2.2.1 rfl

/-- C5 counterexample to the exact message: the no-response result's error text
is "No response received from server", not the "no response received" stated by
the claim. -/
theorem no_response_message_counterexample :
    (SOM.performQuery "k" "q" {} (fun _ => .errorNoResponse)).1.error
        = some (.str "No response received from server")
  ∧ "No response received from server" ≠ "no response received" :=
  ⟨rfl, by decide⟩

/-- C6 (amended): every result of performQuery and of query carries exactly one
of the payload and error fields, and carries the raw upstream body exactly when
a credential was configured and the transport delivered a response body (the
401 short-circuit, the no-response rejection and the request-setup failure
populate no raw field). -/
theorem result_payload_xor_error (apiKey q : String) (opts : SOM.QueryOptions)
    (transport : SOM.FormRequest → SOM.AxiosOutcome) :
    ((SOM.performQuery apiKey q opts transport).1.response.isSome
        = (SOM.performQuery apiKey q opts transport).1.error.isNone)
  ∧ ((SOM.performQuery apiKey q opts transport).1.raw.isSome
        = (decide (apiKey ≠ "")
            && SOM.carriesUpstreamBody (transport (SOM.buildRequest q opts))))
  ∧ ((SOM.query apiKey q opts transport).1.response.isSome
        = (SOM.query apiKey q opts transport).1.error.isNone) := by
  refine ⟨SOM.performQuery_payload_xor_error apiKey q opts transport, ?_, ?_⟩
  · by_cases hkey : apiKey = ""
    · subst hkey
      simp [SOM.performQuery_empty_key]
    · rw [SOM.performQuery_of_key apiKey hkey]
      simp [hkey, SOM.handleOutcome_raw]
  · rcases SOM.query_result_is_a_performQuery_result apiKey q opts transport with h | h | h <;>
      rw [h] <;> exact SOM.performQuery_payload_xor_error apiKey q _ transport

/-- C6 counterexample: results do not always carry the raw upstream body — the
missing-credential short circuit and the no-response failure both return an
error with no raw field. -/
theorem raw_not_always_present_counterexample :
    (SOM.performQuery "" "q" {} (fun _ => .response 200 (.obj []))).1.raw = none
  ∧ (SOM.performQuery "" "q" {} (fun _ => .response 200 (.obj []))).1.error ≠ none
  ∧ (SOM.performQuery "k" "q" {} (fun _ => .errorNoResponse)).1.raw = none
  ∧ (SOM.performQuery "k" "q" {} (fun _ => .errorNoResponse)).1.error ≠ none := by
  refine ⟨rfl, ?_, rfl, ?_⟩
  · intro h
    have h2 : some (Json.str "Missing API key") = (none : Option Json) := h
    exact Option.noConfusion h2
  · intro h
    have h2 : some (Json.str "No response received from server") = (none : Option Json) := h
    exact Option.noConfusion h2

/-- C1 (amended): provided a non-empty credential is configured (otherwise the
401 short-circuit of C4 dispatches zero requests), query dispatches at most two
HTTP requests; when the guard flag is already set it equals one performQuery
call with the given options, dispatching exactly that one request and returning
its result unconditionally; otherwise, outside the Bitcoin special case, the
auto-routing first call's result is returned on status 200, a second call —
forcing the web-search tool with the guard set — is dispatched and its result
returned exactly when the first call failed and the caller specified neither a
truthy tool nor forceWebSearch, and the original failing result is returned
with no second call when a tool or forceWebSearch was already specified. -/
theorem query_fallback_discipline (apiKey q : String) (opts : SOM.QueryOptions)
    (transport : SOM.FormRequest → SOM.AxiosOutcome) (hkey : apiKey ≠ "") :
    ((SOM.query apiKey q opts transport).2.length ≤ 2)
  ∧ (opts.disableFallback = true →
        SOM.query apiKey q opts transport = SOM.performQuery apiKey q opts transport
      ∧ (SOM.query apiKey q opts transport).2 = [SOM.buildRequest q opts])
  ∧ (opts.disableFallback = false → SOM.isBitcoinPriceQuery q = false →
        ((SOM.performQuery apiKey q (SOM.autoRouteOpts opts) transport).1.status = 200 →
            SOM.query apiKey q opts transport
              = SOM.performQuery apiKey q (SOM.autoRouteOpts opts) transport)
      ∧ ((SOM.performQuery apiKey q (SOM.autoRouteOpts opts) transport).1.status ≠ 200 →
          jsTruthyStr opts.tool = false → opts.forceWebSearch = false →
            (SOM.query apiKey q opts transport).1
              = (SOM.performQuery apiKey q (SOM.webSearchOpts opts) transport).1
          ∧ (SOM.query apiKey q opts transport).2
              = [SOM.buildRequest q (SOM.autoRouteOpts opts),
                  SOM.buildRequest q (SOM.webSearchOpts opts)]
          ∧ (SOM.buildRequest q (SOM.webSearchOpts opts)).tool = "web_search"
          ∧ (SOM.webSearchOpts opts).disableFallback = true)
      ∧ ((SOM.performQuery apiKey q (SOM.autoRouteOpts opts) transport).1.status ≠ 200 →
          jsTruthyStr opts.tool = true ∨ opts.forceWebSearch = true →
            SOM.query apiKey q opts transport
              = SOM.performQuery apiKey q (SOM.autoRouteOpts opts) transport)) := by
  refine ⟨SOM.query_reqs_length apiKey q opts transport, ?_, ?_⟩
  · intro h1
    rw [SOM.query_eq_cases, if_pos h1]
    exact ⟨rfl, by rw [SOM.performQuery_of_key apiKey hkey]⟩
  · intro h1 h2
    rw [SOM.query_eq_cases, if_neg (by simp [h1]), if_neg (by simp [h2])]
    refine ⟨?_, ?_, ?_⟩
    · intro h200
      rw [if_pos (by simp [h200])]
    · intro hne htool hfws
      rw [if_neg (by simp [hne]), if_pos (by simp [htool, hfws])]
      refine ⟨rfl, ?_, SOM.webSearchOpts_tool_value opts htool, rfl⟩
      rw [SOM.performQuery_of_key apiKey hkey, SOM.performQuery_of_key apiKey hkey]
      rfl
    · intro hne hspec
      rw [if_neg (by simp [hne]), if_neg ?_]
      rcases hspec with h | h <;> simp [h]

/-- Witness for query_fallback_discipline at a concrete credential, query and
transport. -/
theorem query_fallback_discipline_witness :
    (SOM.query "k" "hello" {} (fun _ => .response 200 (.obj [("response", .str "ok")]))).2.length
      ≤ 2 :=
  (query_fallback_discipline "k" "hello" {}
    (fun _ => .response 200 (.obj [("response", .str "ok")])) (by decide)).1

/-- C1 counterexample: with an empty credential and the guard flag set, the
invocation dispatches zero HTTP requests, not the exactly one call the claim
states for the guard-set path. -/
theorem query_fallback_discipline_counterexample :
    ¬ ((SOM.query "" "hello" { disableFallback := true }
          (fun _ => .errorNoResponse)).2.length = 1) := by decide

/-- C2 (amended): when the guard is not already set, a non-empty credential is
configured and the caller specified no truthy explicit tool, a Bitcoin-price
query (lowercased text containing bitcoin or btc together with one of price,
worth, value) skips automatic routing and performs exactly one HTTP call whose
tool field is web_search and whose timeout is the caller's timeout when set and
non-zero, 30000 ms otherwise, and returns that call's result. -/
theorem bitcoin_price_single_websearch_call (apiKey q : String) (opts : SOM.QueryOptions)
    (transport : SOM.FormRequest → SOM.AxiosOutcome)
    (hkey : apiKey ≠ "") (hguard : opts.disableFallback = false)
    (htool : jsTruthyStr opts.tool = false) (hbtc : SOM.isBitcoinPriceQuery q = true) :
    SOM.query apiKey q opts transport
      = SOM.performQuery apiKey q (SOM.webSearchOpts opts) transport
  ∧ (SOM.query apiKey q opts transport).2 = [SOM.buildRequest q (SOM.webSearchOpts opts)]
  ∧ (SOM.buildRequest q (SOM.webSearchOpts opts)).tool = "web_search"
  ∧ (SOM.buildRequest q (SOM.webSearchOpts opts)).timeout = jsOrInt opts.timeout 30000
  ∧ (SOM.query apiKey q opts transport).1
      = SOM.handleOutcome (transport (SOM.buildRequest q (SOM.webSearchOpts opts))) := by
  have hq : SOM.query apiKey q opts transport
      = SOM.performQuery apiKey q (SOM.webSearchOpts opts) transport := by
    rw [SOM.query_eq_cases, if_neg (by simp [hguard]), if_pos (by simp [hbtc])]
  refine ⟨hq, ?_, SOM.webSearchOpts_tool_value opts htool, SOM.webSearchOpts_timeout opts, ?_⟩
  · rw [hq, SOM.performQuery_of_key apiKey hkey]
  · rw [hq, SOM.performQuery_of_key apiKey hkey]

/-- Witness for bitcoin_price_single_websearch_call on the canonical
Bitcoin-price query. -/
theorem bitcoin_price_single_websearch_call_witness :
    (SOM.buildRequest "What is the price of Bitcoin?"
        (SOM.webSearchOpts {})).tool = "web_search" :=
  (bitcoin_price_single_websearch_call "k" "What is the price of Bitcoin?" {}
    (fun _ => .response 200 (.obj [])) (by decide) rfl rfl (by decide)).2.2.1

/-- C2 counterexample: with a caller-supplied timeout of 5000 ms the single
Bitcoin-price call keeps timeout 5000 (no 30000 ms floor is enforced); with a
caller-supplied explicit tool the call's tool field is that tool, not
web_search; and with an empty credential no call is dispatched at all. -/
theorem bitcoin_price_counterexample :
    ((SOM.query "k" "bitcoin price" { timeout := some 5000 }
        (fun _ => .response 200 (.obj []))).2.map SOM.FormRequest.timeout = [5000])
  ∧ ¬ ((30000 : Int) ≤ 5000)
  ∧ ((SOM.query "k" "bitcoin price" { tool := some "chart" }
        (fun _ => .response 200 (.obj []))).2.map SOM.FormRequest.tool = ["chart"])
  ∧ ((SOM.query "" "bitcoin price" {} (fun _ => .response 200 (.obj []))).2.length = 0) :=
  ⟨rfl, by decide, rfl, rfl⟩

/-- C9 (amended): on a successful query (HTTP 200 with a truthy body) the
payload is the nested response.processed_response field when it is present and
truthy, else the top-level response field when present and truthy, else the
whole body — the JavaScript or-chain falls through on present-but-falsy fields
(such as an empty string), not only on absent ones. -/
theorem success_payload_priority (apiKey q : String) (opts : SOM.QueryOptions)
    (transport : SOM.FormRequest → SOM.AxiosOutcome) (body : Json)
    (hkey : apiKey ≠ "")
    (hresp : transport (SOM.buildRequest q opts) = .response 200 body)
    (hbody : body.truthy = true) :
    (∀ v, (body.get? "response").bind (fun r => r.get? "processed_response") = some v →
        v.truthy = true →
        (SOM.performQuery apiKey q opts transport).1.response = some v)
  ∧ (∀ r, (∀ v, (body.get? "response").bind (fun x => x.get? "processed_response") = some v →
          v.truthy = false) →
        body.get? "response" = some r → r.truthy = true →
        (SOM.performQuery apiKey q opts transport).1.response = some r)
  ∧ ((∀ v, (body.get? "response").bind (fun x => x.get? "processed_response") = some v →
          v.truthy = false) →
      (∀ r, body.get? "response" = some r → r.truthy = false) →
        (SOM.performQuery apiKey q opts transport).1.response = some body) := by
  have hres : (SOM.performQuery apiKey q opts transport).1.response
      = some (SOM.normalizeSuccessBody body) := by
    rw [SOM.performQuery_of_key apiKey hkey, hresp]
    simp [SOM.handleOutcome, hbody]
  rw [hres]
  unfold SOM.normalizeSuccessBody
  refine ⟨?_, ?_, ?_⟩
  · intro v hv hvt
    rw [hv]
    simp [jsOr, hvt]
  · intro r hpr hr hrt
    cases hpc : (body.get? "response").bind (fun x => x.get? "processed_response") with
    | none => rw [hr]; simp [jsOr, hrt]
    | some v =>
        have hvf := hpr v hpc
        rw [hr]
        simp [jsOr, hvf, hrt]
  · intro hpr hresp2
    cases hpc : (body.get? "response").bind (fun x => x.get? "processed_response") with
    | none =>
        cases hrc : body.get? "response" with
        | none => simp [jsOr]
        | some r => have hrf := hresp2 r hrc; simp [jsOr, hrf]
    | some v =>
        have hvf := hpr v hpc
        cases hrc : body.get? "response" with
        | none => simp [jsOr, hvf]
        | some r => have hrf := hresp2 r hrc; simp [jsOr, hvf, hrf]

/-- Witness for success_payload_priority: a body with a truthy nested
processed_response yields that field as payload. -/
theorem success_payload_priority_witness :
    (SOM.performQuery "k" "hello" {}
        (fun _ => .response 200
          (.obj [("response", .obj [("processed_response", .str "hi")])]))).1.response
      = some (.str "hi") :=
  (success_payload_priority "k" "hello" {}
      (fun _ => .response 200 (.obj [("response", .obj [("processed_response", .str "hi")])]))
      (.obj [("response", .obj [("processed_response", .str "hi")])])
      (by decide) rfl rfl).1
    (.str "hi") rfl rfl

/-- C9 counterexample: with a present but empty-string processed_response the
code does not return that field (as the claim's present-field priority states)
but falls through to the enclosing response object. -/
theorem payload_priority_counterexample :
    ((SOM.performQuery "k" "q" {}
        (fun _ => .response 200
          (.obj [("response", .obj [("processed_response", .str "")])]))).1.response
      = some (.obj [("processed_response", .str "")]))
  ∧ ((SOM.performQuery "k" "q" {}
        (fun _ => .response 200
          (.obj [("response", .obj [("processed_response", .str "")])]))).1.response
      ≠ some (.str "")) := by
  refine ⟨rfl, ?_⟩
  intro h
  have h2 : some (Json.obj [("processed_response", Json.str "")]) = some (Json.str "") := h
  exact Json.noConfusion (Option.some.inj h2)

/-! Helper lemmas about the life-simulation cache client. -/

namespace LS

theorem getLifeSimulation_hit (cd now : Int) (nowIso : String)
    (post : SimulationConfig → SimOutcome) (cache : Cache) (config : SimulationConfig)
    (entry : CacheEntry)
    (hentry : cacheGet cache (getCacheKey config) = some entry)
    (hvalid : isCacheValid cd now entry = true) :
    getLifeSimulation cd now nowIso post cache config false
      = { result := .ok entry.data, cache := cache, config := config, fetches := [] } := by
  unfold getLifeSimulation
  simp [hentry, hvalid]

theorem getLifeSimulation_miss (cd now : Int) (nowIso : String)
    (post : SimulationConfig → SimOutcome) (cache : Cache) (config : SimulationConfig)
    (forceRefresh : Bool)
    (hmiss : forceRefresh = true
      ∨ ∀ entry, cacheGet cache (getCacheKey config) = some entry →
          isCacheValid cd now entry = false) :
    getLifeSimulation cd now nowIso post cache config forceRefresh
      = match fetchSimulation nowIso post config with
        | (.ok freshData, config') =>
            { result := .ok freshData
              cache := cacheSet cache (getCacheKey config)
                  { data := freshData, timestamp := now }
              config := config'
              fetches := [config'] }
        | (.error e, config') =>
            { result := .error e, cache := cache, config := config', fetches := [config'] } := by
  cases forceRefresh with
  | true => rfl
  | false =>
      rcases hmiss with hmiss | hmiss
      · exact absurd hmiss (by simp)
      · unfold getLifeSimulation
        cases hentry : cacheGet cache (getCacheKey config) with
        | none => simp [hentry]
        | some entry => simp [hentry, hmiss entry hentry]

theorem fetchSimulation_success (nowIso : String) (post : SimulationConfig → SimOutcome)
    (config : SimulationConfig) (d : ActivityResponse)
    (h : post (applyDefaultTime nowIso config) = .success d) :
    fetchSimulation nowIso post config = (.ok d, applyDefaultTime nowIso config) := by
  simp only [fetchSimulation, h]

theorem getLifeSimulation_miss_ok (cd now : Int) (nowIso : String)
    (post : SimulationConfig → SimOutcome) (cache : Cache) (config : SimulationConfig)
    (forceRefresh : Bool) (d : ActivityResponse) (config' : SimulationConfig)
    (hmiss : forceRefresh = true
      ∨ ∀ entry, cacheGet cache (getCacheKey config) = some entry →
          isCacheValid cd now entry = false)
    (hfetch : fetchSimulation nowIso post config = (.ok d, config')) :
    getLifeSimulation cd now nowIso post cache config forceRefresh
      = { result := .ok d
          cache := cacheSet cache (getCacheKey config) { data := d, timestamp := now }
          config := config'
          fetches := [config'] } := by
  rw [getLifeSimulation_miss cd now nowIso post cache config forceRefresh hmiss, hfetch]

theorem getLifeSimulation_miss_error (cd now : Int) (nowIso : String)
    (post : SimulationConfig → SimOutcome) (cache : Cache) (config : SimulationConfig)
    (forceRefresh : Bool) (e : SimulatorError) (config' : SimulationConfig)
    (hmiss : forceRefresh = true
      ∨ ∀ entry, cacheGet cache (getCacheKey config) = some entry →
          isCacheValid cd now entry = false)
    (hfetch : fetchSimulation nowIso post config = (.error e, config')) :
    getLifeSimulation cd now nowIso post cache config forceRefresh
      = { result := .error e, cache := cache, config := config', fetches := [config'] } := by
  rw [getLifeSimulation_miss cd now nowIso post cache config forceRefresh hmiss, hfetch]

theorem cacheGet_cacheSet_self (cache : Cache) (key : String) (entry : CacheEntry) :
    cacheGet (cacheSet cache key entry) key = some entry := by
  simp [cacheGet, cacheSet, List.lookup]

end LS

/-- C3: given a cached entry under the config's key, a non-forced call returns
the cached data with no network fetch exactly when the entry's age is strictly
below the cache duration (whose constructor default is 300000 ms); otherwise —
and always when forceRefresh is true — it fetches through the network
collaborator, stores the fresh data under the computed key with the current
time, and returns it, leaving the entry a subsequent non-forced call can
reuse. -/
theorem getLifeSimulation_cache_policy (cd now : Int) (nowIso : String)
    (post : LS.SimulationConfig → LS.SimOutcome) (cache : LS.Cache)
    (config : LS.SimulationConfig) (entry : LS.CacheEntry)
    (hentry : LS.cacheGet cache (LS.getCacheKey config) = some entry) :
    (now - entry.timestamp < cd →
        LS.getLifeSimulation cd now nowIso post cache config false
          = { result := .ok entry.data, cache := cache, config := config, fetches := [] })
  ∧ ((LS.getLifeSimulation cd now nowIso post cache config false).fetches = []
        ↔ now - entry.timestamp < cd)
  ∧ (∀ d, ¬ (now - entry.timestamp < cd) →
        post (LS.applyDefaultTime nowIso config) = .success d →
        LS.getLifeSimulation cd now nowIso post cache config false
          = { result := .ok d
              cache := LS.cacheSet cache (LS.getCacheKey config)
                  { data := d, timestamp := now }
              config := LS.applyDefaultTime nowIso config
              fetches := [LS.applyDefaultTime nowIso config] })
  ∧ (∀ d, post (LS.applyDefaultTime nowIso config) = .success d →
        LS.getLifeSimulation cd now nowIso post cache config true
          = { result := .ok d
              cache := LS.cacheSet cache (LS.getCacheKey config)
                  { data := d, timestamp := now }
              config := LS.applyDefaultTime nowIso config
              fetches := [LS.applyDefaultTime nowIso config] }
      ∧ LS.cacheGet (LS.getLifeSimulation cd now nowIso post cache config true).cache
            (LS.getCacheKey config) = some { data := d, timestamp := now })
  ∧ LS.cacheDurationOf none = 300000 := by
  refine ⟨?_, ?_, ?_, ?_, rfl⟩
  · intro hage
    exact LS.getLifeSimulation_hit cd now nowIso post cache config entry hentry
      (by simp [LS.isCacheValid, hage])
  · constructor
    · intro hfet
      by_contra hage
      have hm : (false : Bool) = true
          ∨ ∀ e2, LS.cacheGet cache (LS.getCacheKey config) = some e2 →
              LS.isCacheValid cd now e2 = false :=
        Or.inr (fun e2 he2 => by
          rw [hentry] at he2
          cases he2
          simp [LS.isCacheValid, hage])
      cases hres : LS.fetchSimulation nowIso post config with
      | mk res config' =>
        cases res with
        | ok d2 =>
            rw [LS.getLifeSimulation_miss_ok cd now nowIso post cache config false
              d2 config' hm hres] at hfet
            exact absurd hfet (by simp)
        | error e2 =>
            rw [LS.getLifeSimulation_miss_error cd now nowIso post cache config false
              e2 config' hm hres] at hfet
            exact absurd hfet (by simp)
    · intro hage
      rw [LS.getLifeSimulation_hit cd now nowIso post cache config entry hentry
        (by simp [LS.isCacheValid, hage])]
  · intro d hage hpost
    exact LS.getLifeSimulation_miss_ok cd now nowIso post cache config false
      d (LS.applyDefaultTime nowIso config)
      (Or.inr (fun e2 he2 => by
        rw [hentry] at he2
        cases he2
        simp [LS.isCacheValid, hage]))
      (LS.fetchSimulation_success nowIso post config d hpost)
  · intro d hpost
    have h1 : LS.getLifeSimulation cd now nowIso post cache config true
        = { result := .ok d
            cache := LS.cacheSet cache (LS.getCacheKey config)
                { data := d, timestamp := now }
            config := LS.applyDefaultTime nowIso config
            fetches := [LS.applyDefaultTime nowIso config] } := by
      exact LS.getLifeSimulation_miss_ok cd now nowIso post cache config true
        d (LS.applyDefaultTime nowIso config) (Or.inl rfl)
        (LS.fetchSimulation_success nowIso post config d hpost)
    refine ⟨h1, ?_⟩
    rw [h1]
    exact LS.cacheGet_cacheSet_self cache (LS.getCacheKey config) _

/-- Witness for getLifeSimulation_cache_policy: a fresh entry is served from the
cache with no fetch attempt. -/
theorem getLifeSimulation_cache_policy_witness :
    LS.getLifeSimulation 300000 1000 "2024-01-01T09:00:00Z"
        (fun _ => .success sampleActivity)
        [(LS.getCacheKey sampleConfig, { data := sampleActivity, timestamp := 900 })]
        sampleConfig false
      = { result := .ok sampleActivity
          cache := [(LS.getCacheKey sampleConfig, { data := sampleActivity, timestamp := 900 })]
          config := sampleConfig
          fetches := [] } :=
  (getLifeSimulation_cache_policy 300000 1000 "2024-01-01T09:00:00Z"
      (fun _ => .success sampleActivity)
      [(LS.getCacheKey sampleConfig, { data := sampleActivity, timestamp := 900 })]
      sampleConfig { data := sampleActivity, timestamp := 900 }
      (by simp [LS.cacheGet, List.lookup])).1 (by decide)

/-- C7: when the inner fetch fails, the error propagates as the call's result,
the cache map is left exactly as it was (no entry stored or overwritten for any
key), and exactly one fetch attempt was made (no retry in the cache layer). -/
theorem fetch_failure_leaves_cache_unmodified (cd now : Int) (nowIso : String)
    (post : LS.SimulationConfig → LS.SimOutcome) (cache : LS.Cache)
    (config : LS.SimulationConfig) (forceRefresh : Bool) (e : LS.SimulatorError)
    (h : (LS.getLifeSimulation cd now nowIso post cache config forceRefresh).result
        = .error e) :
    (LS.getLifeSimulation cd now nowIso post cache config forceRefresh).cache = cache
  ∧ (LS.getLifeSimulation cd now nowIso post cache config forceRefresh).fetches.length = 1
  ∧ (LS.fetchSimulation nowIso post config).1 = .error e := by
  cases forceRefresh with
  | true =>
      cases hres : LS.fetchSimulation nowIso post config with
      | mk res config' =>
        cases res with
        | ok dfresh =>
            rw [LS.getLifeSimulation_miss_ok cd now nowIso post cache config true
              dfresh config' (Or.inl rfl) hres] at h
            exact absurd h (by simp)
        | error e' =>
            rw [LS.getLifeSimulation_miss_error cd now nowIso post cache config true
              e' config' (Or.inl rfl) hres] at h ⊢
            have h2 : (Except.error e' : Except LS.SimulatorError LS.ActivityResponse)
                = Except.error e := h
            injection h2 with he
            subst he
            exact ⟨rfl, rfl, rfl⟩
  | false =>
      cases hentry : LS.cacheGet cache (LS.getCacheKey config) with
      | some entry =>
          by_cases hv : LS.isCacheValid cd now entry = true
          · rw [LS.getLifeSimulation_hit cd now nowIso post cache config entry hentry hv] at h
            simp at h
          · have hm : (false : Bool) = true
                ∨ ∀ e2, LS.cacheGet cache (LS.getCacheKey config) = some e2 →
                    LS.isCacheValid cd now e2 = false :=
              Or.inr (fun e2 he2 => by
                rw [hentry] at he2
                cases he2
                simpa using hv)
            cases hres : LS.fetchSimulation nowIso post config with
            | mk res config' =>
              cases res with
              | ok dfresh =>
                  rw [LS.getLifeSimulation_miss_ok cd now nowIso post cache config false
                    dfresh config' hm hres] at h
                  exact absurd h (by simp)
              | error e' =>
                  rw [LS.getLifeSimulation_miss_error cd now nowIso post cache config false
                    e' config' hm hres] at h ⊢
                  have h2 : (Except.error e' : Except LS.SimulatorError LS.ActivityResponse)
                      = Except.error e := h
                  injection h2 with he
                  subst he
                  exact ⟨rfl, rfl, rfl⟩
      | none =>
          have hm : (false : Bool) = true
              ∨ ∀ e2, LS.cacheGet cache (LS.getCacheKey config) = some e2 →
                  LS.isCacheValid cd now e2 = false :=
            Or.inr (fun e2 he2 => by rw [hentry] at he2; cases he2)
          cases hres : LS.fetchSimulation nowIso post config with
          | mk res config' =>
            cases res with
            | ok dfresh =>
                rw [LS.getLifeSimulation_miss_ok cd now nowIso post cache config false
                  dfresh config' hm hres] at h
                exact absurd h (by simp)
            | error e' =>
                rw [LS.getLifeSimulation_miss_error cd now nowIso post cache config false
                  e' config' hm hres] at h ⊢
                have h2 : (Except.error e' : Except LS.SimulatorError LS.ActivityResponse)
                    = Except.error e := h
                injection h2 with he
                subst he
                exact ⟨rfl, rfl, rfl⟩

/-- Witness for fetch_failure_leaves_cache_unmodified at a concrete failing
transport. -/
theorem fetch_failure_leaves_cache_unmodified_witness :
    (LS.getLifeSimulation 300000 1000 "2024-01-01T09:00:00Z"
        (fun _ => .errorWithResponse 503 "Request failed" (.obj [("detail", .str "down")]))
        [] sampleConfig false).cache = [] :=
  (fetch_failure_leaves_cache_unmodified 300000 1000 "2024-01-01T09:00:00Z"
      (fun _ => .errorWithResponse 503 "Request failed" (.obj [("detail", .str "down")]))
      [] sampleConfig false
      { status := 503, message := "Request failed", detail := .str "down" } rfl).1

/-- C8 (amended): the configuration merge fails fast with the fixed
configuration message exactly when residence or office is absent or occupation
is absent or empty — the JavaScript falsy check also rejects a
present-but-empty occupation string, not only a missing one; remote-call
failures, by contrast, surface as SimulatorError result objects from the fetch
path, never as this configuration exception. -/
theorem merge_missing_fields_error_iff (d : LS.PartialSimulationConfig) (nowIso : String)
    (p : LS.PartialSimulationConfig) :
    ((∃ cfg, LS.mergeWithDefaultConfig d nowIso p = .ok cfg)
        ↔ ¬ (p.residence = none ∨ p.office = none ∨ jsTruthyStr p.occupation = false))
  ∧ ((LS.mergeWithDefaultConfig d nowIso p
        = .error "Configuration must include residence, office, and occupation")
        ↔ (p.residence = none ∨ p.office = none ∨ jsTruthyStr p.occupation = false)) := by
  by_cases hc : (p.residence.isNone || p.office.isNone || !jsTruthyStr p.occupation) = true
  · have hdisj : p.residence = none ∨ p.office = none
        ∨ jsTruthyStr p.occupation = false := by
      simpa [Bool.or_eq_true, Bool.not_eq_true', Option.isNone_iff_eq_none,
        or_assoc] using hc
    have herr : LS.mergeWithDefaultConfig d nowIso p
        = .error "Configuration must include residence, office, and occupation" := by
      unfold LS.mergeWithDefaultConfig
      rw [if_pos hc]
    refine ⟨?_, ?_⟩
    · rw [herr]
      constructor
      · rintro ⟨cfg, hcfg⟩
        exact Except.noConfusion hcfg
      · intro hne
        exact absurd hdisj hne
    · rw [herr]
      exact iff_of_true rfl hdisj
  · have h123 : ¬ p.residence = none ∧ ¬ p.office = none
        ∧ jsTruthyStr p.occupation = true := by
      simpa [Bool.or_eq_true, Bool.not_eq_true', Option.isNone_iff_eq_none,
        or_assoc, not_or] using hc
    obtain ⟨h1, h2, h3⟩ := h123
    cases hr : p.residence with
    | none => exact absurd hr h1
    | some r =>
      cases ho : p.office with
      | none => exact absurd ho h2
      | some o =>
        cases hoc : p.occupation with
        | none =>
            rw [hoc] at h3
            exact absurd h3 (by simp [jsTruthyStr])
        | some oc =>
          rw [hoc] at h3
          have hocne : ¬ oc = "" := by simpa [jsTruthyStr] using h3
          have hok : ∃ cfg, LS.mergeWithDefaultConfig d nowIso p = .ok cfg := by
            unfold LS.mergeWithDefaultConfig
            rw [if_neg hc, hr, ho, hoc]
            exact ⟨_, rfl⟩
          obtain ⟨cfg, hcfg⟩ := hok
          refine ⟨?_, ?_⟩
          · exact iff_of_true ⟨cfg, hcfg⟩
              (by simp [hr, ho, hoc, jsTruthyStr, hocne])
          · rw [hcfg]
            exact iff_of_false (by simp) (by simp [hr, ho, hoc, jsTruthyStr, hocne])

/-- C8 counterexample: a partial configuration whose occupation is present but
empty is rejected by the merge, though none of residence, office, occupation is
missing — the claim's "exactly when missing" is too narrow. -/
theorem merge_empty_occupation_counterexample :
    (LS.mergeWithDefaultConfig {} "2024-01-01T00:00:00Z"
        { residence := some sampleHome, office := some sampleOffice, occupation := some "" }
      = .error "Configuration must include residence, office, and occupation")
  ∧ ({ residence := some sampleHome, office := some sampleOffice, occupation := some ""
        : LS.PartialSimulationConfig }).residence ≠ none
  ∧ ({ residence := some sampleHome, office := some sampleOffice, occupation := some ""
        : LS.PartialSimulationConfig }).office ≠ none
  ∧ ({ residence := some sampleHome, office := some sampleOffice, occupation := some ""
        : LS.PartialSimulationConfig }).occupation ≠ none := by
  refine ⟨rfl, ?_, ?_, ?_⟩ <;> intro h <;> exact Option.noConfusion h

/-- C10: for configs lacking current_time the cache key embeds the undefined
timestamp — the call-time default is applied only inside fetchSimulation, after
the key is computed, mutating the caller's config in place — so two calls whose
configs share name and residence name and both lack current_time map to the
same key, and the second call, issued within the cache duration of a first call
whose fetch succeeded, is served from the cache with no network fetch. -/
theorem undefined_timestamp_cache_reuse (cd now1 now2 : Int) (nowIso1 nowIso2 : String)
    (post1 post2 : LS.SimulationConfig → LS.SimOutcome)
    (c1 c2 : LS.SimulationConfig) (d : LS.ActivityResponse)
    (hname : c1.name = c2.name) (hres : c1.residence.name = c2.residence.name)
    (ht1 : c1.current_time = none) (ht2 : c2.current_time = none)
    (hpost : post1 (LS.applyDefaultTime nowIso1 c1) = .success d)
    (hage : now2 - now1 < cd) :
    LS.getCacheKey c1
        = jsTemplateStr c1.name ++ "_" ++ c1.residence.name ++ "_" ++ "undefined"
  ∧ (LS.applyDefaultTime nowIso1 c1).current_time = some nowIso1
  ∧ LS.getCacheKey c2 = LS.getCacheKey c1
  ∧ (LS.getLifeSimulation cd now1 nowIso1 post1 [] c1 false).cache
      = [(LS.getCacheKey c1, { data := d, timestamp := now1 })]
  ∧ LS.getLifeSimulation cd now2 nowIso2 post2
        (LS.getLifeSimulation cd now1 nowIso1 post1 [] c1 false).cache c2 false
      = { result := .ok d
          cache := [(LS.getCacheKey c1, { data := d, timestamp := now1 })]
          config := c2
          fetches := [] } := by
  have hkey1 : LS.getCacheKey c1
      = jsTemplateStr c1.name ++ "_" ++ c1.residence.name ++ "_" ++ "undefined" := by
    unfold LS.getCacheKey
    rw [ht1]
    rfl
  have hkey21 : LS.getCacheKey c2 = LS.getCacheKey c1 := by
    simp [LS.getCacheKey, hname, hres, ht1, ht2]
  have happly : (LS.applyDefaultTime nowIso1 c1).current_time = some nowIso1 := by
    simp [LS.applyDefaultTime, ht1, jsTruthyStr]
  have hstep1 : LS.getLifeSimulation cd now1 nowIso1 post1 [] c1 false
      = { result := .ok d
          cache := LS.cacheSet [] (LS.getCacheKey c1) { data := d, timestamp := now1 }
          config := LS.applyDefaultTime nowIso1 c1
          fetches := [LS.applyDefaultTime nowIso1 c1] } :=
    LS.getLifeSimulation_miss_ok cd now1 nowIso1 post1 [] c1 false d
      (LS.applyDefaultTime nowIso1 c1)
      (Or.inr (fun e2 he2 => by simp [LS.cacheGet] at he2))
      (LS.fetchSimulation_success nowIso1 post1 c1 d hpost)
  have hcache1 : (LS.getLifeSimulation cd now1 nowIso1 post1 [] c1 false).cache
      = [(LS.getCacheKey c1, { data := d, timestamp := now1 })] := by
    rw [hstep1]
    rfl
  refine ⟨hkey1, happly, hkey21, hcache1, ?_⟩
  rw [hcache1]
  have hhit := LS.getLifeSimulation_hit cd now2 nowIso2 post2
      [(LS.getCacheKey c1, { data := d, timestamp := now1 })] c2
      { data := d, timestamp := now1 }
      (by rw [hkey21]; simp [LS.cacheGet, List.lookup])
      (by simp [LS.isCacheValid, hage])
  rw [hhit]

/-- Witness for undefined_timestamp_cache_reuse: two concrete calls with the
same timestamp-free config, 100 ms apart, reuse the cached entry. -/
theorem undefined_timestamp_cache_reuse_witness :
    LS.getLifeSimulation 300000 100 "2024-01-01T09:01:00Z"
        (fun _ => .success sampleActivity)
        (LS.getLifeSimulation 300000 0 "2024-01-01T09:00:00Z"
          (fun _ => .success sampleActivity) [] sampleConfig false).cache
        sampleConfig false
      = { result := .ok sampleActivity
          cache := [(LS.getCacheKey sampleConfig,
              { data := sampleActivity, timestamp := 0 })]
          config := sampleConfig
          fetches := [] } :=
  (undefined_timestamp_cache_reuse 300000 0 100 "2024-01-01T09:00:00Z" "2024-01-01T09:01:00Z"
      (fun _ => .success sampleActivity) (fun _ => .success sampleActivity)
      sampleConfig sampleConfig sampleActivity
      rfl rfl rfl rfl rfl (by decide)).2.2.2.2
